import Mathlib

/-!
Shallow embedding of the Creational-Patterns ticketing system.

The C++ sources live in two near-duplicate trees: a flat variant
(namespaces `CustomerManagement` / `TicketManagement`, files
`CustomerManagement.hpp` and `TicketManagement.hpp`) and a layered variant
(namespace `domain`).  In-memory repositories are `std::map<std::string, T>`
keyed by generated IDs; services generate IDs from pre-incremented counters
starting at 1000; a notification service fans a message out over a list of
channels; a logger collects audit lines.

Modelling choices:
* `std::map` becomes a strictly key-sorted association list
  (`mapInsert` / `mapFind` / `mapValues`), matching `std::map`'s ordered
  storage, `operator[]` overwrite and `find` semantics.
* The `int` counters become `Nat` (overflow is outside every claim's range).
* `std::time(nullptr)` becomes an explicit `now : Nat` argument.
* The logger is modelled as an accumulated `List String`; channel sends are
  recorded as `SendEvent`s so that "a channel was invoked" is observable.
* `std::to_string` becomes `std.to_string`, a fuel-based decimal renderer.
-/

namespace Support

/-- Decimal digit characters of `n`, least significant first, with explicit
fuel so the definition is structurally recursive.  Models the digit loop of
`std::to_string`. -/
def natDigitsRevAux : Nat → Nat → List Char
  | 0, _ => []
  | fuel+1, n =>
    if n < 10 then [Nat.digitChar n]
    else Nat.digitChar (n % 10) :: natDigitsRevAux fuel (n / 10)

/-- Models `std::to_string` on the (non-negative) counter values: the usual
decimal rendering of a natural number. -/
def std.to_string (n : Nat) : String :=
  (natDigitsRevAux (n+1) n).reverse.asString

/-- `enum class CustomerType` (CustomerManagement.hpp). -/
inductive CustomerType
  | REGULAR
  | PREMIUM
  | VIP
deriving DecidableEq, Repr

/-- `enum class TicketStatus` (TicketManagement.hpp). -/
inductive TicketStatus
  | OPEN
  | IN_PROGRESS
  | RESOLVED
  | CLOSED
deriving DecidableEq, Repr

/-- `enum class Priority` (TicketManagement.hpp). -/
inductive Priority
  | LOW
  | MEDIUM
  | HIGH
  | CRITICAL
deriving DecidableEq, Repr

/-- `enum class TicketCategory` (TicketManagement.hpp). -/
inductive TicketCategory
  | TECHNICAL
  | BILLING
  | GENERAL
  | COMPLAINT
  | FEATURE_REQUEST
deriving DecidableEq, Repr

/-- `class Customer` (CustomerManagement.hpp): plain record, immutable after
construction. -/
structure Customer where
  id : String
  name : String
  email : String
  phone : String
  type : CustomerType
deriving DecidableEq, Repr

/-- `class Ticket` (TicketManagement.hpp / domain/models/Ticket.hpp): record
with mutable status/priority/assignedTo/tags. -/
structure Ticket where
  id : String
  customerId : String
  description : String
  status : TicketStatus
  priority : Priority
  category : TicketCategory
  createdAt : Nat
  assignedTo : String
  tags : List String
deriving DecidableEq, Repr

namespace CustomerFactory

/-- `CustomerFactory::getTypePrefix` (CustomerManagement.hpp). -/
def getTypePrefixStr : CustomerType → String
  | CustomerType.PREMIUM => "[PREMIUM] "
  | CustomerType.VIP => "[VIP] "
  | _ => ""

/-- `CustomerFactory::getTypeName` (CustomerManagement.hpp). -/
def getTypeName : CustomerType → String
  | CustomerType.PREMIUM => "Premium"
  | CustomerType.VIP => "VIP"
  | _ => "Regular"

end CustomerFactory

namespace TicketFactory

/-- `TicketFactory::getCategoryName` (TicketManagement.hpp). -/
def getCategoryName : TicketCategory → String
  | TicketCategory.TECHNICAL => "Technical"
  | TicketCategory.BILLING => "Billing"
  | TicketCategory.COMPLAINT => "Complaint"
  | TicketCategory.FEATURE_REQUEST => "Feature Request"
  | _ => "General"

/-- `TicketFactory::getPriorityName` (TicketManagement.hpp). -/
def getPriorityName : Priority → String
  | Priority.LOW => "Low"
  | Priority.MEDIUM => "Medium"
  | Priority.HIGH => "High"
  | Priority.CRITICAL => "Critical"

/-- `TicketFactory::getStatusName` (TicketManagement.hpp). -/
def getStatusName : TicketStatus → String
  | TicketStatus.OPEN => "Open"
  | TicketStatus.IN_PROGRESS => "In Progress"
  | TicketStatus.RESOLVED => "Resolved"
  | TicketStatus.CLOSED => "Closed"

/-- `TicketFactory::getAutoAssignedAgent` (TicketManagement.hpp). -/
def getAutoAssignedAgent : Priority → String
  | Priority.CRITICAL => "Senior-Agent-001"
  | Priority.HIGH => "Agent-002"
  | _ => ""

/-- `TicketFactory::getDefaultTags` (TicketManagement.hpp). -/
def getDefaultTags (category : TicketCategory) : List String :=
  let tags := ["new"]
  match category with
  | TicketCategory.TECHNICAL => tags ++ ["technical-support"]
  | TicketCategory.BILLING => tags ++ ["finance"]
  | TicketCategory.COMPLAINT => tags ++ ["urgent"]
  | TicketCategory.FEATURE_REQUEST => tags ++ ["product"]
  | TicketCategory.GENERAL => tags

end TicketFactory

/-- `class TicketBuilder` (TicketManagement.hpp): fluent builder state; field
defaults are the builder's constructor defaults. -/
structure TicketBuilder where
  id : String := ""
  customerId : String := ""
  description : String := ""
  priority : Priority := Priority.MEDIUM
  assignedTo : String := ""
  category : TicketCategory := TicketCategory.GENERAL
  tags : List String := []

/-- `TicketBuilder::build` (TicketManagement.hpp): constructs the `Ticket`
(status OPEN, assignedTo empty), then conditionally sets `assignedTo`, then
appends every builder tag via `addTag`. -/
def TicketBuilder.build (b : TicketBuilder) (now : Nat) : Ticket :=
  let t : Ticket :=
    { id := b.id, customerId := b.customerId, description := b.description,
      status := TicketStatus.OPEN, priority := b.priority,
      category := b.category, createdAt := now, assignedTo := "", tags := [] }
  let t := if b.assignedTo ≠ "" then { t with assignedTo := b.assignedTo } else t
  { t with tags := t.tags ++ b.tags }

/-- `std::map<std::string, A>::operator[] = v`: insert-or-overwrite keeping
the entries strictly sorted by key. -/
def mapInsert (k : String) (v : α) : List (String × α) → List (String × α)
  | [] => [(k, v)]
  | e :: rest =>
    if k < e.1 then (k, v) :: e :: rest
    else if k = e.1 then (k, v) :: rest
    else e :: mapInsert k v rest

/-- `std::map<std::string, A>::find`, returning `none` for a missing key
(the repositories return `nullptr`). -/
def mapFind (k : String) : List (String × α) → Option α
  | [] => none
  | e :: rest => if k = e.1 then some e.2 else mapFind k rest

/-- Iterating the map in key order and collecting the values: the body of
both repositories' `findAll`. -/
def mapValues (m : List (String × α)) : List α :=
  m.map Prod.snd

/-- The keys of a store. -/
def mapKeys (m : List (String × α)) : List String :=
  m.map Prod.fst

namespace InMemoryCustomerRepository

/-- `InMemoryCustomerRepository::save` (CustomerManagement.hpp):
`customers[customer.getId()] = …`. -/
def save (m : List (String × Customer)) (c : Customer) : List (String × Customer) :=
  mapInsert c.id c m

/-- `InMemoryCustomerRepository::findById` (CustomerManagement.hpp). -/
def findById (m : List (String × Customer)) (id : String) : Option Customer :=
  mapFind id m

/-- `InMemoryCustomerRepository::findAll` (CustomerManagement.hpp). -/
def findAll (m : List (String × Customer)) : List Customer :=
  mapValues m

end InMemoryCustomerRepository

namespace InMemoryTicketRepository

/-- `InMemoryTicketRepository::save` (TicketManagement.hpp):
`tickets[ticket.getId()] = …`. -/
def save (m : List (String × Ticket)) (t : Ticket) : List (String × Ticket) :=
  mapInsert t.id t m

/-- `InMemoryTicketRepository::findById` (TicketManagement.hpp). -/
def findById (m : List (String × Ticket)) (id : String) : Option Ticket :=
  mapFind id m

/-- `InMemoryTicketRepository::findAll` (TicketManagement.hpp). -/
def findAll (m : List (String × Ticket)) : List Ticket :=
  mapValues m

end InMemoryTicketRepository

/-- A notification channel (`INotificationChannel`): a channel name and the
outcome of `send` for each (recipient, message) pair.  The concrete stubs in
NotificationChannels.hpp always return `true`; the model keeps `send`
abstract so theorems quantify over channel behavior. -/
structure Channel where
  name : String
  send : String → String → Bool

/-- One invocation of `INotificationChannel::send`, as an observable event. -/
structure SendEvent where
  channel : String
  recipient : String
  message : String
  ok : Bool
deriving DecidableEq, Repr

/-- `NotificationService::notify` (TicketManagement.hpp, identical control
flow in domain/services/NotificationService.hpp): every channel's `send` is
invoked in registration order, and each successful send logs one audit line.
Returns the send events and the produced log lines. -/
def notify : List Channel → String → String → List SendEvent × List String
  | [], _, _ => ([], [])
  | c :: rest, recipient, message =>
    let ok := c.send recipient message
    let here : List String :=
      if ok then ["Notification sent via " ++ c.name ++ " to " ++ recipient] else []
    let tail := notify rest recipient message
    (⟨c.name, recipient, message, ok⟩ :: tail.1, here ++ tail.2)

/-- The process-wide state: both repositories, the notification service's
channel list, both services' ID counters, the logger's accumulated lines and
the accumulated send events. -/
structure SupportSystem where
  customers : List (String × Customer)
  tickets : List (String × Ticket)
  channels : List Channel
  customerCounter : Nat
  ticketCounter : Nat
  log : List String
  sent : List SendEvent

/-- A fresh system as wired in `main.cpp`: empty repositories, counters at
1000. -/
def SupportSystem.init (channels : List Channel) : SupportSystem :=
  { customers := [], tickets := [], channels := channels,
    customerCounter := 1000, ticketCounter := 1000, log := [], sent := [] }

namespace CustomerManagement

/-- `CustomerService::registerCustomer` (CustomerManagement.hpp, flat
variant): pre-increment the counter, build the ID, decorate the name with
the type prefix, persist, log, return the ID. -/
def registerCustomer (s : SupportSystem) (name email phone : String)
    (ctype : CustomerType) : String × SupportSystem :=
  let counter := s.customerCounter + 1
  let customerId := "CUST-" ++ std.to_string counter
  let pre := CustomerFactory.getTypePrefixStr ctype
  let customer : Customer :=
    { id := customerId, name := pre ++ name, email := email, phone := phone,
      type := ctype }
  (customerId,
    { s with
      customers := InMemoryCustomerRepository.save s.customers customer,
      customerCounter := counter,
      log := s.log ++
        ["Customer registered: " ++ customerId ++ " - " ++ name ++
          " (Type: " ++ CustomerFactory.getTypeName ctype ++ ")"] })

end CustomerManagement

namespace TicketManagement

/-- `TicketService::createTicket` (TicketManagement.hpp, flat variant):
look up the customer (failure sentinel `""` if absent, before any counter
increment), pre-increment the counter, build the ticket via `TicketBuilder`
with auto-assignment and default tags, persist, log, notify the customer's
email. -/
def createTicket (s : SupportSystem) (now : Nat) (customerId description : String)
    (priority : Priority) (category : TicketCategory) : String × SupportSystem :=
  match mapFind customerId s.customers with
  | none =>
    ("", { s with
           log := s.log ++
             ["Failed to create ticket: Customer not found - " ++ customerId] })
  | some customer =>
    let counter := s.ticketCounter + 1
    let ticketId := "TKT-" ++ std.to_string counter
    let assignedAgent := TicketFactory.getAutoAssignedAgent priority
    let b : TicketBuilder :=
      { id := ticketId, customerId := customerId, description := description,
        priority := priority, category := category }
    let b := if assignedAgent ≠ "" then { b with assignedTo := assignedAgent } else b
    let b := { b with tags := b.tags ++ TicketFactory.getDefaultTags category }
    let ticket := b.build now
    let createdLog :=
      "Ticket created: " ++ ticketId ++ " for customer " ++ customer.name ++
        " (Category: " ++ TicketFactory.getCategoryName category ++
        ", Priority: " ++ TicketFactory.getPriorityName priority ++ ")"
    let message :=
      "Your ticket " ++ ticketId ++ " has been created. " ++ "Category: " ++
        TicketFactory.getCategoryName category ++ ". " ++ "Description: " ++
        description
    let n := notify s.channels customer.email message
    (ticketId,
      { s with
        tickets := InMemoryTicketRepository.save s.tickets ticket,
        ticketCounter := counter,
        log := s.log ++ [createdLog] ++ n.2,
        sent := s.sent ++ n.1 })

/-- `TicketService::updateTicketStatus` (TicketManagement.hpp, flat variant):
look up the ticket (failure `false` if absent), set the status, persist,
notify the owning customer when it still resolves, log, return `true`. -/
def updateTicketStatus (s : SupportSystem) (ticketId : String)
    (newStatus : TicketStatus) : Bool × SupportSystem :=
  match mapFind ticketId s.tickets with
  | none =>
    (false, { s with
              log := s.log ++
                ["Failed to update ticket: Ticket not found - " ++ ticketId] })
  | some ticket =>
    let ticket := { ticket with status := newStatus }
    let tickets := InMemoryTicketRepository.save s.tickets ticket
    let n :=
      match mapFind ticket.customerId s.customers with
      | some customer =>
        notify s.channels customer.email
          ("Your ticket " ++ ticketId ++ " status has been updated to: " ++
            TicketFactory.getStatusName newStatus)
      | none => (([] : List SendEvent), ([] : List String))
    (true,
      { s with
        tickets := tickets,
        log := s.log ++ n.2 ++
          ["Ticket status updated: " ++ ticketId ++ " to " ++
            TicketFactory.getStatusName newStatus],
        sent := s.sent ++ n.1 })

end TicketManagement

namespace domain

namespace CustomerFactory

/-- `domain::CustomerFactory::getTypePrefix`
(domain/factory/CustomerFactory.hpp). -/
def getTypePrefixStr : CustomerType → String
  | CustomerType.PREMIUM => "[PREMIUM] "
  | CustomerType.VIP => "[VIP] "
  | _ => ""

/-- `domain::CustomerFactory::getTypeName`
(domain/factory/CustomerFactory.hpp). -/
def getTypeName : CustomerType → String
  | CustomerType.PREMIUM => "Premium"
  | CustomerType.VIP => "VIP"
  | _ => "Regular"

/-- `domain::CustomerFactory::createCustomer`
(domain/factory/CustomerFactory.hpp): prepend the type prefix to the name
and build the record.  `domain::CustomerBuilder` (domain/builder/
CustomerBuilder.hpp) is not under src; per the spec's builder description it
sets exactly the five fields, so `build` is plain record construction. -/
def createCustomer (id name email phone : String) (ctype : CustomerType) :
    Customer :=
  { id := id, name := getTypePrefixStr ctype ++ name, email := email,
    phone := phone, type := ctype }

end CustomerFactory

namespace TicketFactory

/-- Modelled from the spec: `domain::TicketFactory::getCategoryName`
(domain/factory/TicketFactory.hpp is not under src).  The spec states the
two variants have identical behavior, with the category names of §4.4. -/
def getCategoryName : TicketCategory → String
  | TicketCategory.TECHNICAL => "Technical"
  | TicketCategory.BILLING => "Billing"
  | TicketCategory.COMPLAINT => "Complaint"
  | TicketCategory.FEATURE_REQUEST => "Feature Request"
  | _ => "General"

/-- Modelled from the spec: `domain::TicketFactory::getPriorityName`
(domain/factory/TicketFactory.hpp is not under src). -/
def getPriorityName : Priority → String
  | Priority.LOW => "Low"
  | Priority.MEDIUM => "Medium"
  | Priority.HIGH => "High"
  | Priority.CRITICAL => "Critical"

/-- Modelled from the spec: `domain::TicketFactory::getStatusName`
(domain/factory/TicketFactory.hpp is not under src). -/
def getStatusName : TicketStatus → String
  | TicketStatus.OPEN => "Open"
  | TicketStatus.IN_PROGRESS => "In Progress"
  | TicketStatus.RESOLVED => "Resolved"
  | TicketStatus.CLOSED => "Closed"

/-- Modelled from the spec: `domain::TicketFactory::createTicket`
(domain/factory/TicketFactory.hpp is not under src).  Spec §4.4: status
forced to Open; agent by priority (Critical → "Senior-Agent-001", High →
"Agent-002", otherwise unassigned); tags seeded with "new" plus the one
category tag (Technical → "technical-support", Billing → "finance",
Complaint → "urgent", FeatureRequest → "product", General → none). -/
def createTicket (id customerId description : String) (priority : Priority)
    (category : TicketCategory) (now : Nat) : Ticket :=
  { id := id, customerId := customerId, description := description,
    status := TicketStatus.OPEN, priority := priority, category := category,
    createdAt := now,
    assignedTo :=
      match priority with
      | Priority.CRITICAL => "Senior-Agent-001"
      | Priority.HIGH => "Agent-002"
      | _ => "",
    tags :=
      "new" ::
        match category with
        | TicketCategory.TECHNICAL => ["technical-support"]
        | TicketCategory.BILLING => ["finance"]
        | TicketCategory.COMPLAINT => ["urgent"]
        | TicketCategory.FEATURE_REQUEST => ["product"]
        | TicketCategory.GENERAL => [] }

end TicketFactory

/-- `domain::CustomerService::registerCustomer`
(domain/services/CustomerService.hpp, layered variant). -/
def registerCustomer (s : SupportSystem) (name email phone : String)
    (ctype : CustomerType) : String × SupportSystem :=
  let counter := s.customerCounter + 1
  let id := "CUST-" ++ std.to_string counter
  let customer := CustomerFactory.createCustomer id name email phone ctype
  (id,
    { s with
      customers := InMemoryCustomerRepository.save s.customers customer,
      customerCounter := counter,
      log := s.log ++
        ["Registered customer " ++ id ++ " (" ++
          CustomerFactory.getTypeName ctype ++ ")"] })

/-- `domain::TicketService::createTicket`
(domain/services/TicketService.hpp, layered variant). -/
def createTicket (s : SupportSystem) (now : Nat) (customerId description : String)
    (priority : Priority) (category : TicketCategory) : String × SupportSystem :=
  match mapFind customerId s.customers with
  | none =>
    ("", { s with log := s.log ++ ["Cannot create ticket: customer not found"] })
  | some customer =>
    let counter := s.ticketCounter + 1
    let id := "TKT-" ++ std.to_string counter
    let ticket := TicketFactory.createTicket id customerId description priority category now
    let createdLog :=
      "Created ticket " ++ id ++ " (Category=" ++
        TicketFactory.getCategoryName category ++ ", Priority=" ++
        TicketFactory.getPriorityName priority ++ ")"
    let msg :=
      "Your ticket " ++ id ++ " has been created.\n" ++ "Category: " ++
        TicketFactory.getCategoryName category ++ "\n" ++ "Description: " ++
        description
    let n := notify s.channels customer.email msg
    (id,
      { s with
        tickets := InMemoryTicketRepository.save s.tickets ticket,
        ticketCounter := counter,
        log := s.log ++ [createdLog] ++ n.2,
        sent := s.sent ++ n.1 })

/-- `domain::TicketService::updateTicketStatus`
(domain/services/TicketService.hpp, layered variant). -/
def updateTicketStatus (s : SupportSystem) (ticketId : String)
    (newStatus : TicketStatus) : Bool × SupportSystem :=
  match mapFind ticketId s.tickets with
  | none =>
    (false, { s with log := s.log ++ ["Ticket not found: " ++ ticketId] })
  | some ticket =>
    let ticket := { ticket with status := newStatus }
    let tickets := InMemoryTicketRepository.save s.tickets ticket
    let n :=
      match mapFind ticket.customerId s.customers with
      | some customer =>
        notify s.channels customer.email
          ("Your ticket " ++ ticketId ++ " status changed to " ++
            TicketFactory.getStatusName newStatus)
      | none => (([] : List SendEvent), ([] : List String))
    (true,
      { s with
        tickets := tickets,
        log := s.log ++ n.2 ++
          ["Ticket " ++ ticketId ++ " updated to " ++
            TicketFactory.getStatusName newStatus],
        sent := s.sent ++ n.1 })

end domain

/-- Arguments of one `registerCustomer` call. -/
structure RegArgs where
  name : String
  email : String
  phone : String
  ctype : CustomerType

/-- Run a sequence of `registerCustomer` calls (flat variant), collecting the
returned IDs in call order. -/
def runRegisters (s : SupportSystem) : List RegArgs → List String × SupportSystem
  | [] => ([], s)
  | a :: rest =>
    let r := CustomerManagement.registerCustomer s a.name a.email a.phone a.ctype
    let t := runRegisters r.2 rest
    (r.1 :: t.1, t.2)

/-- Arguments of one `createTicket` call. -/
structure CreateArgs where
  now : Nat
  customerId : String
  description : String
  priority : Priority
  category : TicketCategory

/-- Run a sequence of `createTicket` calls (flat variant), collecting the
returned IDs (failure sentinel `""` included) in call order. -/
def runCreates (s : SupportSystem) : List CreateArgs → List String × SupportSystem
  | [] => ([], s)
  | a :: rest =>
    let r := TicketManagement.createTicket s a.now a.customerId a.description
      a.priority a.category
    let t := runCreates r.2 rest
    (r.1 :: t.1, t.2)

/-! ### Arithmetic facts about the decimal rendering -/

/-- Value of a decimal digit character. -/
def digitVal (c : Char) : Nat :=
  c.toNat - 48

/-- Value of a little-endian digit string. -/
def valRev : List Char → Nat
  | [] => 0
  | c :: cs => digitVal c + 10 * valRev cs

theorem digitVal_digitChar : ∀ d : Nat, d < 10 → digitVal (Nat.digitChar d) = d := by
  decide

theorem valRev_natDigitsRevAux :
    ∀ fuel n, n < fuel → valRev (natDigitsRevAux fuel n) = n := by
  intro fuel
  induction fuel with
  | zero => intro n h; omega
  | succ f ih =>
    intro n h
    unfold natDigitsRevAux
    by_cases h10 : n < 10
    · simp [h10, valRev, digitVal_digitChar n h10]
    · have hd : n / 10 < n := Nat.div_lt_self (by omega) (by omega)
      have hf : n / 10 < f := by omega
      simp [h10, valRev, ih _ hf, digitVal_digitChar (n % 10) (Nat.mod_lt n (by omega))]
      omega

theorem to_string_injective : ∀ m n : Nat, std.to_string m = std.to_string n → m = n := by
  intro m n h
  unfold std.to_string at h
  have h2 : (natDigitsRevAux (m+1) m).reverse = (natDigitsRevAux (n+1) n).reverse :=
    congrArg String.data h
  have h3 : natDigitsRevAux (m+1) m = natDigitsRevAux (n+1) n :=
    List.reverse_injective h2
  have h4 := congrArg valRev h3
  rwa [valRev_natDigitsRevAux _ m (by omega), valRev_natDigitsRevAux _ n (by omega)] at h4

/-- Generated IDs determine their counter value: `p ++ to_string` is injective
in the number. -/
theorem id_injective (p : String) (m n : Nat)
    (h : p ++ std.to_string m = p ++ std.to_string n) : m = n := by
  apply to_string_injective
  have hd := congrArg String.data h
  simp only [String.data_append] at hd
  have h2 := List.append_cancel_left hd
  exact String.toList_inj.mp h2

/-- A generated ID is never the failure sentinel. -/
theorem genId_ne_empty (p : String) (n : Nat) (hp : 0 < p.length) :
    p ++ std.to_string n ≠ "" := by
  intro h
  have h1 := congrArg String.length h
  rw [String.length_append] at h1
  simp at h1
  omega

/-! ### Ordered-map lemmas -/

theorem mapFind_mapInsert_self (k : String) (v : α) :
    ∀ m : List (String × α), mapFind k (mapInsert k v m) = some v := by
  intro m
  induction m with
  | nil => simp [mapInsert, mapFind]
  | cons e rest ih =>
    unfold mapInsert
    by_cases h1 : k < e.1
    · simp [h1, mapFind]
    · by_cases h2 : k = e.1
      · simp [h1, h2, mapFind]
      · simp [h1, h2, mapFind, ih]

theorem mapFind_mapInsert_ne (k q : String) (v : α) (hne : q ≠ k) :
    ∀ m : List (String × α), mapFind q (mapInsert k v m) = mapFind q m := by
  intro m
  induction m with
  | nil => simp [mapInsert, mapFind, hne]
  | cons e rest ih =>
    unfold mapInsert
    by_cases h1 : k < e.1
    · simp [h1, mapFind, hne]
    · by_cases h2 : k = e.1
      · have hq : q ≠ e.1 := h2 ▸ hne
        simp [h1, h2, mapFind, hne, hq]
      · simp [h1, h2, mapFind, ih]

theorem mem_mapInsert (k : String) (v : α) :
    ∀ (m : List (String × α)) (x : String × α),
      x ∈ mapInsert k v m → x = (k, v) ∨ x ∈ m := by
  intro m
  induction m with
  | nil => intro x hx; simp [mapInsert] at hx; exact Or.inl hx
  | cons e rest ih =>
    intro x hx
    unfold mapInsert at hx
    by_cases h1 : k < e.1
    · rw [if_pos h1] at hx
      rcases List.mem_cons.mp hx with h | h
      · exact Or.inl h
      · exact Or.inr h
    · rw [if_neg h1] at hx
      by_cases h2 : k = e.1
      · rw [if_pos h2] at hx
        rcases List.mem_cons.mp hx with h | h
        · exact Or.inl h
        · exact Or.inr (List.mem_cons_of_mem e h)
      · rw [if_neg h2] at hx
        rcases List.mem_cons.mp hx with h | h
        · exact Or.inr (List.mem_cons.mpr (Or.inl h))
        · rcases ih x h with h3 | h3
          · exact Or.inl h3
          · exact Or.inr (List.mem_cons_of_mem e h3)

theorem sorted_mapInsert (k : String) (v : α) :
    ∀ m : List (String × α),
      m.Pairwise (fun a b => a.1 < b.1) →
      (mapInsert k v m).Pairwise (fun a b => a.1 < b.1) := by
  intro m
  induction m with
  | nil => intro _; simp [mapInsert]
  | cons e rest ih =>
    intro hs
    rw [List.pairwise_cons] at hs
    unfold mapInsert
    by_cases h1 : k < e.1
    · rw [if_pos h1, List.pairwise_cons]
      refine ⟨?_, List.pairwise_cons.mpr hs⟩
      intro b hb
      rcases List.mem_cons.mp hb with h | h
      · rw [h]; exact h1
      · exact lt_trans h1 (hs.1 b h)
    · rw [if_neg h1]
      by_cases h2 : k = e.1
      · rw [if_pos h2, List.pairwise_cons]
        refine ⟨?_, hs.2⟩
        intro b hb
        show k < b.1
        rw [h2]
        exact hs.1 b hb
      · have h3 : e.1 < k := by
          rcases lt_trichotomy k e.1 with h | h | h
          · exact absurd h h1
          · exact absurd h h2
          · exact h
        rw [if_neg h2, List.pairwise_cons]
        refine ⟨?_, ih hs.2⟩
        intro b hb
        rcases mem_mapInsert k v rest b hb with h | h
        · rw [h]; exact h3
        · exact hs.1 b h

theorem mapFind_eq_none_of_not_mem (k : String) :
    ∀ m : List (String × α), k ∉ mapKeys m → mapFind k m = none := by
  intro m
  induction m with
  | nil => intro _; rfl
  | cons e rest ih =>
    intro hk
    simp [mapKeys] at hk
    simp [mapFind, hk.1, ih (by simp [mapKeys, hk.2])]

theorem length_mapInsert_of_not_mem (k : String) (v : α) :
    ∀ m : List (String × α), k ∉ mapKeys m →
      (mapInsert k v m).length = m.length + 1 := by
  intro m
  induction m with
  | nil => intro _; rfl
  | cons e rest ih =>
    intro hk
    simp [mapKeys] at hk
    unfold mapInsert
    by_cases h1 : k < e.1
    · simp [h1]
    · simp [h1, hk.1, List.length_cons, ih (by simp [mapKeys, hk.2])]

theorem mapFind_mem (k : String) (v : α) :
    ∀ m : List (String × α), mapFind k m = some v → (k, v) ∈ m := by
  intro m
  induction m with
  | nil => intro h; simp [mapFind] at h
  | cons e rest ih =>
    intro h
    unfold mapFind at h
    by_cases h1 : k = e.1
    · rw [if_pos h1] at h
      have h2 : v = e.2 := by
        injection h with h3
        exact h3.symm
      have hx : (k, v) = e := by
        rw [h1, h2]
      exact List.mem_cons.mpr (Or.inl hx)
    · rw [if_neg h1] at h
      exact List.mem_cons_of_mem e (ih h)

/-- Run a sequence of `save` calls, in order, on a store keyed by `f`. -/
def saveAllBy (f : α → String) : List α → List (String × α) → List (String × α)
  | [], m => m
  | x :: xs, m => saveAllBy f xs (mapInsert (f x) x m)

/-- Run a sequence of `InMemoryCustomerRepository::save` calls. -/
def saveAllCustomers : List Customer → List (String × Customer) → List (String × Customer)
  | [], m => m
  | c :: cs, m => saveAllCustomers cs (InMemoryCustomerRepository.save m c)

/-- Run a sequence of `InMemoryTicketRepository::save` calls. -/
def saveAllTickets : List Ticket → List (String × Ticket) → List (String × Ticket)
  | [], m => m
  | t :: ts, m => saveAllTickets ts (InMemoryTicketRepository.save m t)

theorem saveAllCustomers_eq :
    ∀ (cs : List Customer) m, saveAllCustomers cs m = saveAllBy Customer.id cs m := by
  intro cs
  induction cs with
  | nil => intro m; rfl
  | cons c rest ih => intro m; exact ih (mapInsert c.id c m)

theorem saveAllTickets_eq :
    ∀ (ts : List Ticket) m, saveAllTickets ts m = saveAllBy Ticket.id ts m := by
  intro ts
  induction ts with
  | nil => intro m; rfl
  | cons t rest ih => intro m; exact ih (mapInsert t.id t m)

theorem saveAllBy_props (f : α → String) :
    ∀ (xs : List α) (m : List (String × α)),
      (xs.map f).Nodup →
      (∀ k ∈ mapKeys m, k ∉ xs.map f) →
      m.Pairwise (fun a b => a.1 < b.1) →
      (∀ e ∈ m, e.1 = f e.2) →
      (saveAllBy f xs m).Pairwise (fun a b => a.1 < b.1) ∧
      (∀ e ∈ saveAllBy f xs m, e.1 = f e.2) ∧
      (saveAllBy f xs m).length = m.length + xs.length := by
  intro xs
  induction xs with
  | nil =>
    intro m _ _ hsort hwf
    exact ⟨hsort, hwf, rfl⟩
  | cons x rest ih =>
    intro m hnd hfresh hsort hwf
    simp only [List.map_cons, List.nodup_cons] at hnd
    have hx : f x ∉ mapKeys m := fun hmem => (hfresh (f x) hmem) (by simp)
    have hfresh2 : ∀ k ∈ mapKeys (mapInsert (f x) x m), k ∉ rest.map f := by
      intro k hk
      rcases List.mem_map.mp hk with ⟨e, he, hek⟩
      rcases mem_mapInsert (f x) x m e he with h | h
      · rw [← hek, h]
        exact hnd.1
      · have := hfresh k (List.mem_map.mpr ⟨e, h, hek⟩)
        intro hk2
        exact this (by simp [hk2])
    have hwf2 : ∀ e ∈ mapInsert (f x) x m, e.1 = f e.2 := by
      intro e he
      rcases mem_mapInsert (f x) x m e he with h | h
      · rw [h]
      · exact hwf e h
    have hlen := length_mapInsert_of_not_mem (f x) x m hx
    have hrec := ih (mapInsert (f x) x m) hnd.2 hfresh2 (sorted_mapInsert (f x) x m hsort) hwf2
    refine ⟨hrec.1, hrec.2.1, ?_⟩
    rw [show saveAllBy f (x :: rest) m = saveAllBy f rest (mapInsert (f x) x m) from rfl,
      hrec.2.2, hlen]
    simp [List.length_cons]
    omega

/-- `TicketBuilder::build` in closed form: the conditional `setAssignedTo`
is the identity when the builder's agent is empty. -/
theorem TicketBuilder.build_eq (b : TicketBuilder) (now : Nat) :
    b.build now =
      { id := b.id, customerId := b.customerId, description := b.description,
        status := TicketStatus.OPEN, priority := b.priority,
        category := b.category, createdAt := now, assignedTo := b.assignedTo,
        tags := b.tags } := by
  unfold TicketBuilder.build
  by_cases h : b.assignedTo = "" <;> simp [h]

/-- The flat variant's builder chain in `TicketService::createTicket` builds
the same ticket record as the layered variant's factory. -/
theorem flatTicket_eq (id cid d : String) (p : Priority) (cat : TicketCategory)
    (now : Nat) :
    (TicketBuilder.build
      (let b : TicketBuilder :=
        { id := id, customerId := cid, description := d, priority := p,
          category := cat }
       let b :=
        if TicketFactory.getAutoAssignedAgent p ≠ "" then
          { b with assignedTo := TicketFactory.getAutoAssignedAgent p }
        else b
       { b with tags := b.tags ++ TicketFactory.getDefaultTags cat }) now) =
    domain.TicketFactory.createTicket id cid d p cat now := by
  cases p <;> cases cat <;> rfl

/-! ### Concrete data for witnesses -/

/-- A channel whose `send` always succeeds, like the console stubs in
NotificationChannels.hpp. -/
def demoChannel : Channel :=
  { name := "Email", send := fun _ _ => true }

def demoCustomer : Customer :=
  { id := "CUST-1001", name := "Alice", email := "a@x.com", phone := "555-0001",
    type := CustomerType.REGULAR }

def demoTicket : Ticket :=
  { id := "TKT-1001", customerId := "CUST-1001", description := "printer broken",
    status := TicketStatus.OPEN, priority := Priority.HIGH,
    category := TicketCategory.TECHNICAL, createdAt := 0,
    assignedTo := "Agent-002", tags := ["new", "technical-support"] }

/-- A system state reached after one registration and one ticket creation. -/
def demoSystem : SupportSystem :=
  { customers := [("CUST-1001", demoCustomer)],
    tickets := [("TKT-1001", demoTicket)],
    channels := [demoChannel],
    customerCounter := 1001, ticketCounter := 1001, log := [], sent := [] }

/-! ### Claim theorems -/

/-- C2: for every state and every customerId the customer repository does not
hold, `createTicket` returns the empty-string failure sentinel, leaves the
ticket and customer repositories unchanged, and invokes no channel send. -/
theorem createTicket_missing_customer (s : SupportSystem) (now : Nat)
    (customerId description : String) (priority : Priority)
    (category : TicketCategory)
    (h : mapFind customerId s.customers = none) :
    (TicketManagement.createTicket s now customerId description priority category).1 = "" ∧
    (TicketManagement.createTicket s now customerId description priority category).2.tickets = s.tickets ∧
    (TicketManagement.createTicket s now customerId description priority category).2.customers = s.customers ∧
    (TicketManagement.createTicket s now customerId description priority category).2.sent = s.sent := by
  simp [TicketManagement.createTicket, h]

/-- Witness for C2 at a concrete store: `CUST-9999` is not registered. -/
theorem createTicket_missing_customer_witness :
    (TicketManagement.createTicket demoSystem 5 "CUST-9999" "help" Priority.LOW TicketCategory.GENERAL).1 = "" ∧
    (TicketManagement.createTicket demoSystem 5 "CUST-9999" "help" Priority.LOW TicketCategory.GENERAL).2.tickets = demoSystem.tickets ∧
    (TicketManagement.createTicket demoSystem 5 "CUST-9999" "help" Priority.LOW TicketCategory.GENERAL).2.customers = demoSystem.customers ∧
    (TicketManagement.createTicket demoSystem 5 "CUST-9999" "help" Priority.LOW TicketCategory.GENERAL).2.sent = demoSystem.sent :=
  createTicket_missing_customer demoSystem 5 "CUST-9999" "help" Priority.LOW
    TicketCategory.GENERAL (by decide)

/-- C5: every successful `createTicket` stores under the returned ID a ticket
whose `assignedTo` is determined solely by priority (Critical →
"Senior-Agent-001", High → "Agent-002", otherwise empty) and whose tags are
exactly "new" followed by the category tag. -/
theorem createTicket_assignment_and_tags (s : SupportSystem) (now : Nat)
    (customerId description : String) (priority : Priority)
    (category : TicketCategory) (customer : Customer)
    (h : mapFind customerId s.customers = some customer) :
    mapFind (TicketManagement.createTicket s now customerId description priority category).1
        (TicketManagement.createTicket s now customerId description priority category).2.tickets =
      some { id := (TicketManagement.createTicket s now customerId description priority category).1,
             customerId := customerId, description := description,
             status := TicketStatus.OPEN, priority := priority,
             category := category, createdAt := now,
             assignedTo :=
               match priority with
               | Priority.CRITICAL => "Senior-Agent-001"
               | Priority.HIGH => "Agent-002"
               | _ => "",
             tags :=
               "new" ::
                 match category with
                 | TicketCategory.TECHNICAL => ["technical-support"]
                 | TicketCategory.BILLING => ["finance"]
                 | TicketCategory.COMPLAINT => ["urgent"]
                 | TicketCategory.FEATURE_REQUEST => ["product"]
                 | TicketCategory.GENERAL => [] } := by
  cases priority <;> cases category <;>
    (simp only [TicketManagement.createTicket, h]; exact mapFind_mapInsert_self _ _ _)

/-- Witness for C5: a High/Technical ticket for the registered customer. -/
theorem createTicket_assignment_and_tags_witness :
    mapFind (TicketManagement.createTicket demoSystem 7 "CUST-1001" "vpn down" Priority.HIGH TicketCategory.TECHNICAL).1
        (TicketManagement.createTicket demoSystem 7 "CUST-1001" "vpn down" Priority.HIGH TicketCategory.TECHNICAL).2.tickets =
      some { id := (TicketManagement.createTicket demoSystem 7 "CUST-1001" "vpn down" Priority.HIGH TicketCategory.TECHNICAL).1,
             customerId := "CUST-1001", description := "vpn down",
             status := TicketStatus.OPEN, priority := Priority.HIGH,
             category := TicketCategory.TECHNICAL, createdAt := 7,
             assignedTo := "Agent-002",
             tags := ["new", "technical-support"] } :=
  createTicket_assignment_and_tags demoSystem 7 "CUST-1001" "vpn down"
    Priority.HIGH TicketCategory.TECHNICAL demoCustomer (by decide)

/-- C6: `updateTicketStatus` on an absent ticketId returns false and leaves
both repositories unchanged, for every newStatus. -/
theorem updateTicketStatus_missing (s : SupportSystem) (ticketId : String)
    (newStatus : TicketStatus)
    (h : mapFind ticketId s.tickets = none) :
    (TicketManagement.updateTicketStatus s ticketId newStatus).1 = false ∧
    (TicketManagement.updateTicketStatus s ticketId newStatus).2.tickets = s.tickets ∧
    (TicketManagement.updateTicketStatus s ticketId newStatus).2.customers = s.customers := by
  simp [TicketManagement.updateTicketStatus, h]

/-- Witness for C6: `TKT-9999` is not stored. -/
theorem updateTicketStatus_missing_witness :
    (TicketManagement.updateTicketStatus demoSystem "TKT-9999" TicketStatus.CLOSED).1 = false ∧
    (TicketManagement.updateTicketStatus demoSystem "TKT-9999" TicketStatus.CLOSED).2.tickets = demoSystem.tickets ∧
    (TicketManagement.updateTicketStatus demoSystem "TKT-9999" TicketStatus.CLOSED).2.customers = demoSystem.customers :=
  updateTicketStatus_missing demoSystem "TKT-9999" TicketStatus.CLOSED (by decide)

/-- C7: `updateTicketStatus` on a present ticketId returns true, stores that
ticket with only its status changed, leaves every other stored ticket
unchanged, and leaves the customer store unchanged. -/
theorem updateTicketStatus_found (s : SupportSystem) (ticketId : String)
    (newStatus : TicketStatus) (t : Ticket)
    (hwf : ∀ e ∈ s.tickets, e.1 = e.2.id)
    (h : mapFind ticketId s.tickets = some t) :
    (TicketManagement.updateTicketStatus s ticketId newStatus).1 = true ∧
    mapFind ticketId (TicketManagement.updateTicketStatus s ticketId newStatus).2.tickets =
      some { t with status := newStatus } ∧
    (∀ q, q ≠ ticketId →
      mapFind q (TicketManagement.updateTicketStatus s ticketId newStatus).2.tickets =
        mapFind q s.tickets) ∧
    (TicketManagement.updateTicketStatus s ticketId newStatus).2.customers = s.customers := by
  have hid : ticketId = t.id := hwf (ticketId, t) (mapFind_mem ticketId t s.tickets h)
  refine ⟨?_, ?_, ?_, ?_⟩
  · simp [TicketManagement.updateTicketStatus, h]
  · simp only [TicketManagement.updateTicketStatus, h]
    rw [hid]
    exact mapFind_mapInsert_self _ _ _
  · intro q hq
    simp only [TicketManagement.updateTicketStatus, h]
    exact mapFind_mapInsert_ne t.id q _ (hid ▸ hq) s.tickets
  · simp [TicketManagement.updateTicketStatus, h]

/-- Witness for C7: closing the stored ticket `TKT-1001`. -/
theorem updateTicketStatus_found_witness :
    (TicketManagement.updateTicketStatus demoSystem "TKT-1001" TicketStatus.CLOSED).1 = true ∧
    mapFind "TKT-1001" (TicketManagement.updateTicketStatus demoSystem "TKT-1001" TicketStatus.CLOSED).2.tickets =
      some { demoTicket with status := TicketStatus.CLOSED } ∧
    (∀ q, q ≠ "TKT-1001" →
      mapFind q (TicketManagement.updateTicketStatus demoSystem "TKT-1001" TicketStatus.CLOSED).2.tickets =
        mapFind q demoSystem.tickets) ∧
    (TicketManagement.updateTicketStatus demoSystem "TKT-1001" TicketStatus.CLOSED).2.customers = demoSystem.customers :=
  updateTicketStatus_found demoSystem "TKT-1001" TicketStatus.CLOSED demoTicket
    (by decide) (by decide)

/-- C9: `registerCustomer` always succeeds and stores under the returned ID a
customer whose name is the type prefix ("[VIP] ", "[PREMIUM] ", or nothing)
prepended to the given name, with email, phone and type stored as given. -/
theorem registerCustomer_total (s : SupportSystem) (name email phone : String)
    (ctype : CustomerType) :
    mapFind (CustomerManagement.registerCustomer s name email phone ctype).1
        (CustomerManagement.registerCustomer s name email phone ctype).2.customers =
      some { id := (CustomerManagement.registerCustomer s name email phone ctype).1,
             name :=
               (match ctype with
               | CustomerType.VIP => "[VIP] "
               | CustomerType.PREMIUM => "[PREMIUM] "
               | CustomerType.REGULAR => "") ++ name,
             email := email, phone := phone, type := ctype } := by
  cases ctype <;> exact mapFind_mapInsert_self _ _ _

/-- C10: `notify` invokes `send` on every channel in registration order with
no short-circuit, and exactly the channels whose send succeeds produce an
audit log line naming the channel and recipient. -/
theorem notify_fanout (channels : List Channel) (recipient message : String) :
    (notify channels recipient message).1 =
      channels.map (fun c => ⟨c.name, recipient, message, c.send recipient message⟩) ∧
    (notify channels recipient message).2 =
      (channels.filter (fun c => c.send recipient message)).map
        (fun c => "Notification sent via " ++ c.name ++ " to " ++ recipient) := by
  induction channels with
  | nil => simp [notify]
  | cons c rest ih =>
    by_cases h : c.send recipient message <;>
      simp [notify, h, ih.1, ih.2, List.filter_cons]

/-- The IDs returned by a register sequence, enumerated from the starting
counter. -/
theorem runRegisters_ids :
    ∀ (args : List RegArgs) (s : SupportSystem),
      (runRegisters s args).1 =
        (List.range args.length).map
          (fun i => "CUST-" ++ std.to_string (s.customerCounter + 1 + i)) := by
  intro args
  induction args with
  | nil => intro s; simp [runRegisters]
  | cons a rest ih =>
    intro s
    have hstep :
        (runRegisters s (a :: rest)).1 =
          ("CUST-" ++ std.to_string (s.customerCounter + 1)) ::
            (runRegisters
              (CustomerManagement.registerCustomer s a.name a.email a.phone a.ctype).2
              rest).1 := rfl
    rw [hstep, ih]
    have hc :
        (CustomerManagement.registerCustomer s a.name a.email a.phone a.ctype).2.customerCounter =
          s.customerCounter + 1 := rfl
    rw [hc, List.length_cons, List.range_succ_eq_map, List.map_cons, List.map_map]
    refine congrArg₂ List.cons ?_ ?_
    · simp
    · apply List.map_congr_left
      intro i _
      simp only [Function.comp_apply]
      exact congrArg (fun n => "CUST-" ++ std.to_string n) (by omega)

/-- C4: on a fresh CustomerService, the nth `registerCustomer` call returns
"CUST-" ++ (1000 + n) — first "CUST-1001" — regardless of the arguments, so
the generated IDs are strictly increasing and unique. -/
theorem registerCustomer_id_sequence (channels : List Channel) (args : List RegArgs) :
    (runRegisters (SupportSystem.init channels) args).1 =
      (List.range args.length).map (fun i => "CUST-" ++ std.to_string (1001 + i)) ∧
    (runRegisters (SupportSystem.init channels) args).1.Nodup := by
  have h := runRegisters_ids args (SupportSystem.init channels)
  have h1 :
      (runRegisters (SupportSystem.init channels) args).1 =
        (List.range args.length).map (fun i => "CUST-" ++ std.to_string (1001 + i)) := by
    rw [h]
    apply List.map_congr_left
    intro i _
    exact congrArg (fun n => "CUST-" ++ std.to_string n) (by norm_num [SupportSystem.init])
  refine ⟨h1, ?_⟩
  rw [h1]
  refine List.Nodup.map ?_ (List.nodup_range _)
  intro i j hij
  have := id_injective "CUST-" (1001 + i) (1001 + j) hij
  omega

/-- The successful IDs of a create sequence, enumerated from the starting
ticket counter; the counter advances by exactly the number of successes. -/
theorem runCreates_ids :
    ∀ (args : List CreateArgs) (s : SupportSystem),
      ((runCreates s args).1.filter (fun id => !(id == ""))).length + s.ticketCounter =
        (runCreates s args).2.ticketCounter ∧
      ((runCreates s args).1.filter (fun id => !(id == ""))) =
        (List.range ((runCreates s args).1.filter (fun id => !(id == ""))).length).map
          (fun i => "TKT-" ++ std.to_string (s.ticketCounter + 1 + i)) := by
  intro args
  induction args with
  | nil => intro s; simp [runCreates]
  | cons a rest ih =>
    intro s
    have hstep :
        runCreates s (a :: rest) =
          ((TicketManagement.createTicket s a.now a.customerId a.description a.priority a.category).1 ::
            (runCreates (TicketManagement.createTicket s a.now a.customerId a.description a.priority a.category).2 rest).1,
           (runCreates (TicketManagement.createTicket s a.now a.customerId a.description a.priority a.category).2 rest).2) := rfl
    cases hc : mapFind a.customerId s.customers with
    | none =>
      have hr1 :
          (TicketManagement.createTicket s a.now a.customerId a.description a.priority a.category).1 = "" := by
        simp [TicketManagement.createTicket, hc]
      have hr2 :
          (TicketManagement.createTicket s a.now a.customerId a.description a.priority a.category).2.ticketCounter =
            s.ticketCounter := by
        simp [TicketManagement.createTicket, hc]
      have ihh := ih (TicketManagement.createTicket s a.now a.customerId a.description a.priority a.category).2
      rw [hr2] at ihh
      rw [hstep]
      simp only [hr1, List.filter_cons, beq_self_eq_true, Bool.not_true,
        Bool.false_eq_true, if_false]
      exact ihh
    | some customer =>
      have hr1 :
          (TicketManagement.createTicket s a.now a.customerId a.description a.priority a.category).1 =
            "TKT-" ++ std.to_string (s.ticketCounter + 1) := by
        simp [TicketManagement.createTicket, hc]
      have hr2 :
          (TicketManagement.createTicket s a.now a.customerId a.description a.priority a.category).2.ticketCounter =
            s.ticketCounter + 1 := by
        simp [TicketManagement.createTicket, hc]
      have hne : ("TKT-" ++ std.to_string (s.ticketCounter + 1)) ≠ "" :=
        genId_ne_empty "TKT-" (s.ticketCounter + 1) (by decide)
      have hcond : (("TKT-" ++ std.to_string (s.ticketCounter + 1)) == "") = false :=
        beq_eq_false_iff_ne.mpr hne
      have ihh := ih (TicketManagement.createTicket s a.now a.customerId a.description a.priority a.category).2
      rw [hr2] at ihh
      rw [hstep]
      simp only [hr1, List.filter_cons, hcond, Bool.not_false, if_true]
      refine ⟨?_, ?_⟩
      · have h1 := ihh.1
        rw [List.length_cons]
        omega
      · rw [List.length_cons, List.range_succ_eq_map, List.map_cons, List.map_map]
        refine congrArg₂ List.cons ?_ ?_
        · simp
        · calc ((runCreates (TicketManagement.createTicket s a.now a.customerId a.description a.priority a.category).2 rest).1.filter
              (fun id => !(id == "")))
              = (List.range ((runCreates (TicketManagement.createTicket s a.now a.customerId a.description a.priority a.category).2 rest).1.filter
                  (fun id => !(id == ""))).length).map
                  (fun i => "TKT-" ++ std.to_string (s.ticketCounter + 1 + 1 + i)) := ihh.2
            _ = (List.range ((runCreates (TicketManagement.createTicket s a.now a.customerId a.description a.priority a.category).2 rest).1.filter
                  (fun id => !(id == ""))).length).map
                  ((fun i => "TKT-" ++ std.to_string (s.ticketCounter + 1 + i)) ∘ Nat.succ) := by
              apply List.map_congr_left
              intro i _
              simp only [Function.comp_apply]
              exact congrArg (fun n => "TKT-" ++ std.to_string n) (by omega)

/-- C1: on a fresh TicketService (any pre-existing customers), the IDs
returned by successful `createTicket` calls are exactly "TKT-1001",
"TKT-1002", … in order (strictly increasing, unique), and a failed call
(missing customer) does not increment the ticket counter: the next
successful call gets the number the failed call would have consumed. -/
theorem createTicket_id_sequence (channels : List Channel)
    (customers : List (String × Customer)) (args : List CreateArgs) :
    (((runCreates { SupportSystem.init channels with customers := customers } args).1.filter
        (fun id => !(id == ""))) =
      (List.range
        (((runCreates { SupportSystem.init channels with customers := customers } args).1.filter
          (fun id => !(id == "")))).length).map
        (fun i => "TKT-" ++ std.to_string (1001 + i))) ∧
    ((runCreates { SupportSystem.init channels with customers := customers } args).1.filter
        (fun id => !(id == ""))).Nodup ∧
    (∀ (s2 : SupportSystem) (now : Nat) (cid d : String) (p : Priority) (c : TicketCategory),
      (TicketManagement.createTicket s2 now cid d p c).2.ticketCounter =
        (if (TicketManagement.createTicket s2 now cid d p c).1 = "" then s2.ticketCounter
         else s2.ticketCounter + 1)) := by
  have h := runCreates_ids args { SupportSystem.init channels with customers := customers }
  have h1 :
      ((runCreates { SupportSystem.init channels with customers := customers } args).1.filter
          (fun id => !(id == ""))) =
        (List.range
          (((runCreates { SupportSystem.init channels with customers := customers } args).1.filter
            (fun id => !(id == "")))).length).map
          (fun i => "TKT-" ++ std.to_string (1001 + i)) := by
    rw [h.2]
    simp only [List.length_map, List.length_range]
    apply List.map_congr_left
    intro i _
    exact congrArg (fun n => "TKT-" ++ std.to_string n) (by norm_num [SupportSystem.init])
  refine ⟨h1, ?_, ?_⟩
  · rw [h1]
    refine List.Nodup.map ?_ (List.nodup_range _)
    intro i j hij
    have := id_injective "TKT-" (1001 + i) (1001 + j) hij
    omega
  · intro s2 now cid d p c
    cases hc : mapFind cid s2.customers with
    | none =>
      have hr1 : (TicketManagement.createTicket s2 now cid d p c).1 = "" := by
        simp [TicketManagement.createTicket, hc]
      have hr2 : (TicketManagement.createTicket s2 now cid d p c).2.ticketCounter = s2.ticketCounter := by
        simp [TicketManagement.createTicket, hc]
      rw [hr1, hr2, if_pos rfl]
    | some customer =>
      have hr1 : (TicketManagement.createTicket s2 now cid d p c).1 =
          "TKT-" ++ std.to_string (s2.ticketCounter + 1) := by
        simp [TicketManagement.createTicket, hc]
      have hr2 : (TicketManagement.createTicket s2 now cid d p c).2.ticketCounter =
          s2.ticketCounter + 1 := by
        simp [TicketManagement.createTicket, hc]
      rw [hr1, hr2, if_neg (genId_ne_empty "TKT-" (s2.ticketCounter + 1) (by decide))]

/-- In a store whose entries are keyed by their record's ID, `findAll`'s
records carry exactly the store's keys, in store order. -/
theorem mapValues_ids_eq_keys (f : α → String) (M : List (String × α))
    (hwf : ∀ e ∈ M, e.1 = f e.2) :
    (mapValues M).map f = mapKeys M := by
  simp only [mapValues, mapKeys, List.map_map]
  exact List.map_congr_left (fun e he => (hwf e he).symm)

/-- A second registered customer, for the repository-contract witness. -/
def demoCustomerB : Customer :=
  { id := "CUST-1002", name := "[VIP] Bob", email := "b@x.com", phone := "555-0002",
    type := CustomerType.VIP }

/-- A second stored ticket, for the repository-contract witness. -/
def demoTicketB : Ticket :=
  { id := "TKT-1002", customerId := "CUST-1002", description := "invoice wrong",
    status := TicketStatus.OPEN, priority := Priority.LOW,
    category := TicketCategory.BILLING, createdAt := 1,
    assignedTo := "", tags := ["new", "finance"] }

/-- C8: both in-memory repositories satisfy their contract: save/findById
round-trip with all fields equal, last-write-wins on a repeated ID,
explicit not-found (never a crash) for a missing ID, and findAll after N
distinct saves returns exactly N records in ID-sorted order. -/
theorem repository_contract
    (m : List (String × Customer)) (c c2 : Customer) (id : String)
    (cs : List Customer)
    (mt : List (String × Ticket)) (t t2 : Ticket) (tid : String)
    (ts : List Ticket)
    (hc2 : c2.id = c.id) (hid : id ∉ mapKeys m)
    (hcs : (cs.map Customer.id).Nodup)
    (ht2 : t2.id = t.id) (htid : tid ∉ mapKeys mt)
    (hts : (ts.map Ticket.id).Nodup) :
    InMemoryCustomerRepository.findById (InMemoryCustomerRepository.save m c) c.id = some c ∧
    InMemoryCustomerRepository.findById
      (InMemoryCustomerRepository.save (InMemoryCustomerRepository.save m c) c2) c.id = some c2 ∧
    InMemoryCustomerRepository.findById m id = none ∧
    (InMemoryCustomerRepository.findAll (saveAllCustomers cs [])).length = cs.length ∧
    ((InMemoryCustomerRepository.findAll (saveAllCustomers cs [])).map Customer.id).Pairwise
      (fun a b => a < b) ∧
    InMemoryTicketRepository.findById (InMemoryTicketRepository.save mt t) t.id = some t ∧
    InMemoryTicketRepository.findById
      (InMemoryTicketRepository.save (InMemoryTicketRepository.save mt t) t2) t.id = some t2 ∧
    InMemoryTicketRepository.findById mt tid = none ∧
    (InMemoryTicketRepository.findAll (saveAllTickets ts [])).length = ts.length ∧
    ((InMemoryTicketRepository.findAll (saveAllTickets ts [])).map Ticket.id).Pairwise
      (fun a b => a < b) := by
  have hcprops := saveAllBy_props Customer.id cs [] hcs (by simp [mapKeys])
    (by simp) (by simp)
  have htprops := saveAllBy_props Ticket.id ts [] hts (by simp [mapKeys])
    (by simp) (by simp)
  refine ⟨mapFind_mapInsert_self c.id c m, ?_, mapFind_eq_none_of_not_mem id m hid,
    ?_, ?_, mapFind_mapInsert_self t.id t mt, ?_,
    mapFind_eq_none_of_not_mem tid mt htid, ?_, ?_⟩
  · show mapFind c.id (mapInsert c2.id c2 (mapInsert c.id c m)) = some c2
    nth_rewrite 1 [← hc2]
    exact mapFind_mapInsert_self c2.id c2 (mapInsert c.id c m)
  · show (mapValues (saveAllCustomers cs [])).length = cs.length
    rw [saveAllCustomers_eq]
    simp only [mapValues, List.length_map]
    rw [hcprops.2.2]
    simp
  · rw [saveAllCustomers_eq]
    show ((mapValues (saveAllBy Customer.id cs [])).map Customer.id).Pairwise (fun a b => a < b)
    rw [mapValues_ids_eq_keys Customer.id _ hcprops.2.1]
    rw [mapKeys, List.pairwise_map]
    exact hcprops.1
  · show mapFind t.id (mapInsert t2.id t2 (mapInsert t.id t mt)) = some t2
    nth_rewrite 1 [← ht2]
    exact mapFind_mapInsert_self t2.id t2 (mapInsert t.id t mt)
  · show (mapValues (saveAllTickets ts [])).length = ts.length
    rw [saveAllTickets_eq]
    simp only [mapValues, List.length_map]
    rw [htprops.2.2]
    simp
  · rw [saveAllTickets_eq]
    show ((mapValues (saveAllBy Ticket.id ts [])).map Ticket.id).Pairwise (fun a b => a < b)
    rw [mapValues_ids_eq_keys Ticket.id _ htprops.2.1]
    rw [mapKeys, List.pairwise_map]
    exact htprops.1

/-- Witness for C8: concrete saves in non-sorted order, a same-ID overwrite,
and a lookup of an unknown ID. -/
theorem repository_contract_witness :
    InMemoryCustomerRepository.findById (InMemoryCustomerRepository.save [] demoCustomer) demoCustomer.id = some demoCustomer ∧
    InMemoryCustomerRepository.findById
      (InMemoryCustomerRepository.save (InMemoryCustomerRepository.save [] demoCustomer)
        { demoCustomer with name := "Alice B." }) demoCustomer.id =
      some { demoCustomer with name := "Alice B." } ∧
    InMemoryCustomerRepository.findById [] "CUST-9999" = none ∧
    (InMemoryCustomerRepository.findAll (saveAllCustomers [demoCustomerB, demoCustomer] [])).length =
      ([demoCustomerB, demoCustomer] : List Customer).length ∧
    ((InMemoryCustomerRepository.findAll (saveAllCustomers [demoCustomerB, demoCustomer] [])).map
      Customer.id).Pairwise (fun a b => a < b) ∧
    InMemoryTicketRepository.findById (InMemoryTicketRepository.save [] demoTicket) demoTicket.id = some demoTicket ∧
    InMemoryTicketRepository.findById
      (InMemoryTicketRepository.save (InMemoryTicketRepository.save [] demoTicket)
        { demoTicket with description := "still broken" }) demoTicket.id =
      some { demoTicket with description := "still broken" } ∧
    InMemoryTicketRepository.findById [] "TKT-9999" = none ∧
    (InMemoryTicketRepository.findAll (saveAllTickets [demoTicketB, demoTicket] [])).length =
      ([demoTicketB, demoTicket] : List Ticket).length ∧
    ((InMemoryTicketRepository.findAll (saveAllTickets [demoTicketB, demoTicket] [])).map
      Ticket.id).Pairwise (fun a b => a < b) :=
  repository_contract [] demoCustomer { demoCustomer with name := "Alice B." }
    "CUST-9999" [demoCustomerB, demoCustomer]
    [] demoTicket { demoTicket with description := "still broken" }
    "TKT-9999" [demoTicketB, demoTicket]
    (by decide) (by decide) (by decide) (by decide) (by decide) (by decide)

/-- C3 counterexample: the two variants do NOT emit the same log lines or
notification messages.  On the same fresh state, the flat variant logs
"Customer registered: CUST-1001 - Jane (Type: VIP)" while the layered one
logs "Registered customer CUST-1001 (VIP)"; on the same one-customer state,
the two variants' `createTicket` send different notification texts
(". "-separated versus newline-separated). -/
theorem variants_log_counterexample :
    ((CustomerManagement.registerCustomer (SupportSystem.init [demoChannel]) "Jane" "j@x.com" "555" CustomerType.VIP).2.log ≠
      (domain.registerCustomer (SupportSystem.init [demoChannel]) "Jane" "j@x.com" "555" CustomerType.VIP).2.log) ∧
    ((TicketManagement.createTicket demoSystem 3 "CUST-1001" "printer" Priority.LOW TicketCategory.GENERAL).2.sent ≠
      (domain.createTicket demoSystem 3 "CUST-1001" "printer" Priority.LOW TicketCategory.GENERAL).2.sent) := by
  constructor
  · decide
  · decide

/-- C3 (amended): for every operation and input running from the same state,
the flat and the layered variant return the same value and leave the
customer store, the ticket store and the ID counters in the same state; the
audit log lines and the notification message texts differ between the
variants. -/
theorem variants_state_equivalence (s : SupportSystem)
    (name email phone : String) (ctype : CustomerType)
    (now : Nat) (customerId description : String) (priority : Priority)
    (category : TicketCategory) (ticketId : String) (newStatus : TicketStatus) :
    (CustomerManagement.registerCustomer s name email phone ctype).1 =
      (domain.registerCustomer s name email phone ctype).1 ∧
    (CustomerManagement.registerCustomer s name email phone ctype).2.customers =
      (domain.registerCustomer s name email phone ctype).2.customers ∧
    (CustomerManagement.registerCustomer s name email phone ctype).2.customerCounter =
      (domain.registerCustomer s name email phone ctype).2.customerCounter ∧
    (TicketManagement.createTicket s now customerId description priority category).1 =
      (domain.createTicket s now customerId description priority category).1 ∧
    (TicketManagement.createTicket s now customerId description priority category).2.tickets =
      (domain.createTicket s now customerId description priority category).2.tickets ∧
    (TicketManagement.createTicket s now customerId description priority category).2.customers =
      (domain.createTicket s now customerId description priority category).2.customers ∧
    (TicketManagement.createTicket s now customerId description priority category).2.ticketCounter =
      (domain.createTicket s now customerId description priority category).2.ticketCounter ∧
    (TicketManagement.updateTicketStatus s ticketId newStatus).1 =
      (domain.updateTicketStatus s ticketId newStatus).1 ∧
    (TicketManagement.updateTicketStatus s ticketId newStatus).2.tickets =
      (domain.updateTicketStatus s ticketId newStatus).2.tickets ∧
    (TicketManagement.updateTicketStatus s ticketId newStatus).2.customers =
      (domain.updateTicketStatus s ticketId newStatus).2.customers := by
  refine ⟨rfl, ?_, rfl, ?_, ?_, ?_, ?_, ?_, ?_, ?_⟩
  · show mapInsert _ _ s.customers = mapInsert _ _ s.customers
    cases ctype <;> rfl
  · cases hc : mapFind customerId s.customers with
    | none => simp [TicketManagement.createTicket, domain.createTicket, hc]
    | some customer => simp [TicketManagement.createTicket, domain.createTicket, hc]
  · cases hc : mapFind customerId s.customers with
    | none => simp [TicketManagement.createTicket, domain.createTicket, hc]
    | some customer =>
      simp only [TicketManagement.createTicket, domain.createTicket, hc]
      exact congrArg (fun t : Ticket => mapInsert t.id t s.tickets)
        (flatTicket_eq ("TKT-" ++ std.to_string (s.ticketCounter + 1))
          customerId description priority category now)
  · cases hc : mapFind customerId s.customers with
    | none => simp [TicketManagement.createTicket, domain.createTicket, hc]
    | some customer => simp [TicketManagement.createTicket, domain.createTicket, hc]
  · cases hc : mapFind customerId s.customers with
    | none => simp [TicketManagement.createTicket, domain.createTicket, hc]
    | some customer => simp [TicketManagement.createTicket, domain.createTicket, hc]
  · cases ht : mapFind ticketId s.tickets with
    | none => simp [TicketManagement.updateTicketStatus, domain.updateTicketStatus, ht]
    | some ticket => simp [TicketManagement.updateTicketStatus, domain.updateTicketStatus, ht]
  · cases ht : mapFind ticketId s.tickets with
    | none => simp [TicketManagement.updateTicketStatus, domain.updateTicketStatus, ht]
    | some ticket => simp [TicketManagement.updateTicketStatus, domain.updateTicketStatus, ht]
  · cases ht : mapFind ticketId s.tickets with
    | none => simp [TicketManagement.updateTicketStatus, domain.updateTicketStatus, ht]
    | some ticket => simp [TicketManagement.updateTicketStatus, domain.updateTicketStatus, ht]

end Support
